import Mathlib

/-
Verification of the NNAPI runtime execution-orchestration layer
(runtime/ExecutionBuilder.cpp): the per-request ExecutionBuilder state
machine, output-shape reconciliation (isUpdatable / updateOutputShapes),
and the partitioned step-walker loop with its CPU fallback coordinator
(asyncStartComputePartitioned, cpuFallbackPartial, cpuFallbackFull).

Machine integers are embedded as Nat (uint32_t / uint64_t values, with an
explicit mod 2^64 where uint64_t overflow matters) and C++ int result codes
as Int.  External collaborators (ExecutionPlan, devices, prepared models,
completion callbacks) are supplied as oracle data recording what each call
to them returns; the control flow acting on those answers is translated
from the source.  The walker produces an explicit event trace (fallback
attempts and completion-callback notifications) over which the temporal
properties are stated.
-/

/-- Largest value of a C++ uint64_t, used by the source as the
"not measured" timing sentinel. -/
def UINT64_MAX : Nat := 2 ^ 64 - 1

/-- Modelled from the spec: numeric value of the public NNAPI result code
ANEURALNETWORKS_NO_ERROR (NeuralNetworks.h is not among the provided
sources). -/
def ANEURALNETWORKS_NO_ERROR : Int := 0

/-- Modelled from the spec: numeric value of the public NNAPI result code
ANEURALNETWORKS_BAD_DATA, the code the spec calls BadData
(NeuralNetworks.h is not among the provided sources). -/
def ANEURALNETWORKS_BAD_DATA : Int := 4

/-- Modelled from the spec: numeric value of the public NNAPI result code
ANEURALNETWORKS_BAD_STATE, the code the spec calls InvalidState
(NeuralNetworks.h is not among the provided sources). -/
def ANEURALNETWORKS_BAD_STATE : Int := 6

/-- Modelled from the spec: numeric value of the public NNAPI result code
ANEURALNETWORKS_OUTPUT_INSUFFICIENT_SIZE (NeuralNetworks.h is not among
the provided sources). -/
def ANEURALNETWORKS_OUTPUT_INSUFFICIENT_SIZE : Int := 8

/-- Modelled from the spec: numeric value of the public NNAPI result code
ANEURALNETWORKS_UNAVAILABLE_DEVICE (NeuralNetworks.h is not among the
provided sources). -/
def ANEURALNETWORKS_UNAVAILABLE_DEVICE : Int := 9

/-- HAL error status codes used by step callbacks
(hal ErrorStatus, see common/include/nnapi/Types.h). -/
inductive ErrorStatus where
  | NONE
  | DEVICE_UNAVAILABLE
  | GENERAL_FAILURE
  | OUTPUT_INSUFFICIENT_SIZE
  | INVALID_ARGUMENT
deriving DecidableEq, Repr

/-- Timing information: durations in microseconds at the HAL level, with
UINT64_MAX as the "not measured" sentinel. -/
structure Timing where
  timeOnDevice : Nat
  timeInDriver : Nat
deriving DecidableEq, Repr

/-- The kNoTiming constant of ExecutionBuilder.cpp. -/
def kNoTiming : Timing := { timeOnDevice := UINT64_MAX, timeInDriver := UINT64_MAX }

/-- Per-output shape as reported by a device for one step
(hal OutputShape). -/
structure OutputShape where
  dimensions : List Nat
  isSufficient : Bool
deriving DecidableEq, Repr, Inhabited

/-- Binding state of one input or output slot
(ModelArgumentInfo::state in the source). -/
inductive ArgState where
  | UNSPECIFIED
  | POINTER
  | MEMORY
  | HAS_NO_VALUE
deriving DecidableEq, Repr

/-- Per-input/output argument descriptor of an ExecutionBuilder
(ModelArgumentInfo in the source); only the fields ExecutionBuilder.cpp
reads or writes are retained. -/
structure ModelArgumentInfo where
  state : ArgState
  dimensions : List Nat
  isSufficient : Bool
deriving DecidableEq, Repr

instance : Inhabited ModelArgumentInfo :=
  ⟨{ state := ArgState.UNSPECIFIED, dimensions := [], isSufficient := true }⟩

/-- The per-request execution object (ExecutionBuilder in the source).
The fields mExplicitDeviceList and mDevicesCount stand for the
mCompilation->mExplicitDeviceList flag and mCompilation->mDevices.size()
read by setMeasureTiming; mMemories is the pool table. -/
structure ExecutionBuilder where
  mStarted : Bool
  mFinished : Bool
  mMeasureTiming : Bool
  mInputs : List ModelArgumentInfo
  mOutputs : List ModelArgumentInfo
  mMemories : List Nat
  mTiming : Timing
  mExplicitDeviceList : Bool
  mDevicesCount : Nat
deriving DecidableEq, Repr

/-- Modelled from the spec: MemoryTracker::add (Memory.cpp is not among the
provided sources) appends a pool handle to the ordered, de-duplicated pool
table and returns the stable index of that handle. -/
def MemoryTracker.add (pools : List Nat) (memId : Nat) : Nat × List Nat :=
  match pools.findIdx? (fun p => p == memId) with
  | some i => (i, pools)
  | none => (pools.length, pools ++ [memId])

/-- Check whether the dimension vector to is updatable by the dimension
vector fr, translated from the static isUpdatable of ExecutionBuilder.cpp:
an empty to always is; otherwise the ranks must agree and every position
of to must either equal the corresponding position of fr or be 0. -/
def isUpdatable (toV frV : List Nat) : Bool :=
  if toV.length = 0 then true
  else if toV.length ≠ frV.length then false
  else (List.range toV.length).all fun i => toV.getD i 0 == frV.getD i 0 || toV.getD i 0 == 0

/-- ExecutionBuilder::setInput.  The validations delegated to collaborators
outside this file enter as oracle arguments: checkDimOk is the result of
checkDimensionInfo, and (setCode, newInfo) are the return code and slot
contents produced by ModelArgumentInfo::setFromPointer. -/
def ExecutionBuilder.setInput (b : ExecutionBuilder) (index : Nat) (checkDimOk : Bool)
    (length : Nat) (setCode : Int) (newInfo : ModelArgumentInfo) : Int × ExecutionBuilder :=
  if b.mStarted then (ANEURALNETWORKS_BAD_STATE, b)
  else if b.mInputs.length ≤ index then (ANEURALNETWORKS_BAD_DATA, b)
  else if checkDimOk = false then (ANEURALNETWORKS_BAD_DATA, b)
  else if 0xFFFFFFFF < length then (ANEURALNETWORKS_BAD_DATA, b)
  else (setCode, { b with mInputs := b.mInputs.set index newInfo })

/-- ExecutionBuilder::setInputFromMemory.  checkDimOk abbreviates
checkDimensionInfo; isAhwbNonBlob is whether the memory is a non-BLOB
AHardwareBuffer ("hardware_buffer" hidl name); validateSizeOk is
Memory::validateSize; (setCode, newInfo) come from
ModelArgumentInfo::setFromMemory. -/
def ExecutionBuilder.setInputFromMemory (b : ExecutionBuilder) (index : Nat)
    (checkDimOk : Bool) (memId : Nat) (isAhwbNonBlob : Bool) (offset length : Nat)
    (validateSizeOk : Bool) (setCode : Int) (newInfo : ModelArgumentInfo) :
    Int × ExecutionBuilder :=
  if b.mStarted then (ANEURALNETWORKS_BAD_STATE, b)
  else if b.mInputs.length ≤ index then (ANEURALNETWORKS_BAD_DATA, b)
  else if checkDimOk = false then (ANEURALNETWORKS_BAD_DATA, b)
  else if isAhwbNonBlob ∧ (offset ≠ 0 ∨ length ≠ 0) then (ANEURALNETWORKS_BAD_DATA, b)
  else if validateSizeOk = false then (ANEURALNETWORKS_BAD_DATA, b)
  else (setCode, { b with mMemories := (MemoryTracker.add b.mMemories memId).2,
                          mInputs := b.mInputs.set index newInfo })

/-- ExecutionBuilder::setOutput, with the same oracle conventions as
ExecutionBuilder.setInput. -/
def ExecutionBuilder.setOutput (b : ExecutionBuilder) (index : Nat) (checkDimOk : Bool)
    (length : Nat) (setCode : Int) (newInfo : ModelArgumentInfo) : Int × ExecutionBuilder :=
  if b.mStarted then (ANEURALNETWORKS_BAD_STATE, b)
  else if b.mOutputs.length ≤ index then (ANEURALNETWORKS_BAD_DATA, b)
  else if checkDimOk = false then (ANEURALNETWORKS_BAD_DATA, b)
  else if 0xFFFFFFFF < length then (ANEURALNETWORKS_BAD_DATA, b)
  else (setCode, { b with mOutputs := b.mOutputs.set index newInfo })

/-- ExecutionBuilder::setOutputFromMemory, with the same oracle conventions
as ExecutionBuilder.setInputFromMemory. -/
def ExecutionBuilder.setOutputFromMemory (b : ExecutionBuilder) (index : Nat)
    (checkDimOk : Bool) (memId : Nat) (isAhwbNonBlob : Bool) (offset length : Nat)
    (validateSizeOk : Bool) (setCode : Int) (newInfo : ModelArgumentInfo) :
    Int × ExecutionBuilder :=
  if b.mStarted then (ANEURALNETWORKS_BAD_STATE, b)
  else if b.mOutputs.length ≤ index then (ANEURALNETWORKS_BAD_DATA, b)
  else if checkDimOk = false then (ANEURALNETWORKS_BAD_DATA, b)
  else if isAhwbNonBlob ∧ (offset ≠ 0 ∨ length ≠ 0) then (ANEURALNETWORKS_BAD_DATA, b)
  else if validateSizeOk = false then (ANEURALNETWORKS_BAD_DATA, b)
  else (setCode, { b with mMemories := (MemoryTracker.add b.mMemories memId).2,
                          mOutputs := b.mOutputs.set index newInfo })

/-- ExecutionBuilder::setMeasureTiming: rejected with BAD_DATA unless the
compilation was created for an explicit device list with exactly one
device, then rejected with BAD_STATE if the execution has started. -/
def ExecutionBuilder.setMeasureTiming (b : ExecutionBuilder) (measure : Bool) :
    Int × ExecutionBuilder :=
  if b.mExplicitDeviceList = false ∨ b.mDevicesCount ≠ 1 then (ANEURALNETWORKS_BAD_DATA, b)
  else if b.mStarted then (ANEURALNETWORKS_BAD_STATE, b)
  else (ANEURALNETWORKS_NO_ERROR, { b with mMeasureTiming := measure })

/-- Selector for ExecutionBuilder::getDuration's durationCode argument
(ANEURALNETWORKS_DURATION_ON_HARDWARE / ANEURALNETWORKS_DURATION_IN_DRIVER). -/
inductive DurationCode where
  | onHardware
  | inDriver
deriving DecidableEq, Repr

/-- Recorded microsecond duration selected by getDuration's switch on the
durationCode argument. -/
def selectedDuration (b : ExecutionBuilder) (code : DurationCode) : Nat :=
  match code with
  | DurationCode.onHardware => b.mTiming.timeOnDevice
  | DurationCode.inDriver => b.mTiming.timeInDriver

/-- ExecutionBuilder::getDuration.  The second component is the value
written through the duration out-parameter (none when nothing is written).
The microsecond-to-nanosecond conversion is the source's uint64_t
multiplication by 1000, hence taken mod 2^64, and is skipped when the
recorded duration is the UINT64_MAX sentinel. -/
def ExecutionBuilder.getDuration (b : ExecutionBuilder) (code : DurationCode) :
    Int × Option Nat :=
  if b.mFinished = false then (ANEURALNETWORKS_BAD_STATE, none)
  else if b.mMeasureTiming = false then (ANEURALNETWORKS_BAD_STATE, some UINT64_MAX)
  else
    (ANEURALNETWORKS_NO_ERROR, some
      (if selectedDuration b code = UINT64_MAX then UINT64_MAX
       else (1000 * selectedDuration b code) % 2 ^ 64))

/-- ExecutionBuilder::getOutputOperandDimensions.  The second component is
the dimension vector copied into the caller's buffer (none when nothing is
written). -/
def ExecutionBuilder.getOutputOperandDimensions (b : ExecutionBuilder) (index : Nat) :
    Int × Option (List Nat) :=
  if b.mFinished = false then (ANEURALNETWORKS_BAD_STATE, none)
  else if b.mOutputs.length ≤ index then (ANEURALNETWORKS_BAD_DATA, none)
  else if (b.mOutputs.getD index default).dimensions.isEmpty then
    (ANEURALNETWORKS_BAD_DATA, none)
  else
    ((if (b.mOutputs.getD index default).isSufficient then ANEURALNETWORKS_NO_ERROR
      else ANEURALNETWORKS_OUTPUT_INSUFFICIENT_SIZE),
     some (b.mOutputs.getD index default).dimensions)

/-- ExecutionBuilder::getOutputOperandRank.  The second component is the
rank written through the out-parameter (none when nothing is written). -/
def ExecutionBuilder.getOutputOperandRank (b : ExecutionBuilder) (index : Nat) :
    Int × Option Nat :=
  if b.mFinished = false then (ANEURALNETWORKS_BAD_STATE, none)
  else if b.mOutputs.length ≤ index then (ANEURALNETWORKS_BAD_DATA, none)
  else
    ((if (b.mOutputs.getD index default).isSufficient then ANEURALNETWORKS_NO_ERROR
      else ANEURALNETWORKS_OUTPUT_INSUFFICIENT_SIZE),
     some (b.mOutputs.getD index default).dimensions.length)

/-- Overwrite the dimensions and sufficiency flag of each stored output
with the corresponding proposed shape (the second, mutating loop of
ExecutionBuilder::updateOutputShapes). -/
def overwriteOutputs (outs : List ModelArgumentInfo) (shapes : List OutputShape) :
    List ModelArgumentInfo :=
  List.zipWith
    (fun o s => { o with dimensions := s.dimensions, isSufficient := s.isSufficient })
    outs shapes

/-- ExecutionBuilder::updateOutputShapes: check every proposed shape
against the stored output dimensions first (rank-count match, then
isUpdatable per slot), and only when all checks pass overwrite the stored
dimensions and sufficiency flags; an empty proposed vector succeeds
without touching anything. -/
def ExecutionBuilder.updateOutputShapes (b : ExecutionBuilder)
    (outputShapes : List OutputShape) : Bool × ExecutionBuilder :=
  if outputShapes.length = 0 then (true, b)
  else if outputShapes.length ≠ b.mOutputs.length then (false, b)
  else if (List.range outputShapes.length).all (fun i =>
      isUpdatable (b.mOutputs.getD i default).dimensions
        (outputShapes.getD i default).dimensions) then
    (true, { b with mOutputs := overwriteOutputs b.mOutputs outputShapes })
  else (false, b)

/-- ExecutionBuilder::finish: mark the execution finished, fold the final
output shapes into the stored outputs, and report GENERAL_FAILURE when that
reconciliation fails. -/
def ExecutionBuilder.finish (b : ExecutionBuilder) (outputShapes : List OutputShape) :
    ErrorStatus × ExecutionBuilder :=
  match ExecutionBuilder.updateOutputShapes { b with mFinished := true } outputShapes with
  | (true, b2) => (ErrorStatus.NONE, b2)
  | (false, b2) => (ErrorStatus.GENERAL_FAILURE, b2)

/-- ExecutionBuilder::compute, guard phase (lines up to setting mStarted):
reject with BAD_STATE when already started, with BAD_DATA when some input
or output slot is still UNSPECIFIED; otherwise mark the execution started.
The subsequent plan execution is abstracted by the oracle runCode; its
builder-side effects happen through ExecutionBuilder.finish, modelled
separately. -/
def ExecutionBuilder.compute (b : ExecutionBuilder) (runCode : Int) : Int × ExecutionBuilder :=
  if b.mStarted then (ANEURALNETWORKS_BAD_STATE, b)
  else if b.mInputs.any (fun p => p.state == ArgState.UNSPECIFIED) then
    (ANEURALNETWORKS_BAD_DATA, b)
  else if b.mOutputs.any (fun p => p.state == ArgState.UNSPECIFIED) then
    (ANEURALNETWORKS_BAD_DATA, b)
  else (runCode, { b with mStarted := true })

/-- ExecutionBuilder::initializeOutputShapes: seed the walker's running
shape table from the currently bound output dimensions, all marked
sufficient. -/
def ExecutionBuilder.initOutputShapes (b : ExecutionBuilder) : List OutputShape :=
  b.mOutputs.map fun o => { dimensions := o.dimensions, isSufficient := true }

/-- Modelled from the spec: convertResultCodeToErrorStatus (Utils.cpp is
not among the provided sources).  Per the error taxonomy, caller-contract
codes map to INVALID_ARGUMENT, the insufficient-size code to
OUTPUT_INSUFFICIENT_SIZE, device unavailability to DEVICE_UNAVAILABLE, and
everything else to GENERAL_FAILURE. -/
def convertResultCodeToErrorStatus (n : Int) : ErrorStatus :=
  if n = ANEURALNETWORKS_NO_ERROR then ErrorStatus.NONE
  else if n = ANEURALNETWORKS_BAD_DATA then ErrorStatus.INVALID_ARGUMENT
  else if n = ANEURALNETWORKS_OUTPUT_INSUFFICIENT_SIZE then
    ErrorStatus.OUTPUT_INSUFFICIENT_SIZE
  else if n = ANEURALNETWORKS_UNAVAILABLE_DEVICE then ErrorStatus.DEVICE_UNAVAILABLE
  else ErrorStatus.GENERAL_FAILURE

/-- Observable actions of the walker and fallback coordinator: entering the
partial-fallback routine (cpuFallbackPartial), entering the full-model
fallback routine (cpuFallbackFull), and a completion-callback delivery
(executionCallback->notify with status, output shapes and timing). -/
inductive Event where
  | partialFallbackAttempt
  | fullFallbackAttempt
  | notify (status : ErrorStatus) (shapes : List OutputShape) (timing : Timing)
deriving DecidableEq, Repr

/-- Oracle record for one plan step reaching the walker: the result code of
StepExecutor::startCompute, the step callback's status, output shapes and
timing, and the step's output-index mapping
(getOutputIndexSubModelToFromModel; none models a StepExecutor without an
ExecutionStep). -/
structure StepResult where
  dispatchCode : Int
  status : ErrorStatus
  shapes : List OutputShape
  indexMapping : Option (List Nat)
  timing : Timing
deriving DecidableEq, Repr

/-- Oracle record for one cpuFallbackPartial invocation: the result code of
plan->fallback, whether the replacement executor is the CPU device, the
result code of startComputeOnCpuFallback, and the fallback callback's
status, shapes and output-index mapping. -/
structure FallbackStep where
  fallbackCode : Int
  executorIsCpu : Bool
  dispatchCode : Int
  status : ErrorStatus
  shapes : List OutputShape
  indexMapping : Option (List Nat)
deriving DecidableEq, Repr

/-- Oracle record for one cpuFallbackFull invocation: the result code of
startComputeOnCpuFallback and the fallback callback's status, shapes and
timing. -/
structure FullFallback where
  dispatchCode : Int
  status : ErrorStatus
  shapes : List OutputShape
  timing : Timing
deriving DecidableEq, Repr

/-- One answer of plan->next in the walker loop: either an error code, or a
step (with the oracle data for the partial and full fallbacks that would be
consulted if it fails).  An exhausted list models next returning a null
executor (normal completion). -/
inductive PlanItem where
  | planError (n : Int) (full : FullFallback)
  | step (s : StepResult) (fb : FallbackStep) (full : FullFallback)
deriving DecidableEq, Repr

/-- Inner loop of StepExecutor::updateOutputShapes: for each (toIndex,
shape) pair, bounds-check toIndex, check isUpdatable against the current
entry, and overwrite it; a failed check stops immediately, keeping the
entries already overwritten (the source mutates in place). -/
def updApply : List (Nat × OutputShape) → List OutputShape → Bool × List OutputShape
  | [], toShapes => (true, toShapes)
  | (toIndex, sh) :: rest, toShapes =>
    if toShapes.length ≤ toIndex then (false, toShapes)
    else if isUpdatable (toShapes.getD toIndex default).dimensions sh.dimensions then
      updApply rest (toShapes.set toIndex sh)
    else (false, toShapes)

/-- StepExecutor::updateOutputShapes: fold the step's reported shapes into
the walker's running shape table, through the step's output-index mapping
when the executor has an ExecutionStep, index-to-index otherwise.  Returns
the success flag and the (possibly partially) updated table. -/
def StepExecutor.updateOutputShapes (indexMapping : Option (List Nat))
    (frShapes toShapes : List OutputShape) : Bool × List OutputShape :=
  if frShapes.length = 0 then (true, toShapes)
  else
    match indexMapping with
    | some m =>
      if m.length ≤ frShapes.length then updApply (m.zip frShapes) toShapes
      else (false, toShapes)
    | none =>
      if frShapes.length = toShapes.length then
        updApply ((List.range frShapes.length).zip frShapes) toShapes
      else (false, toShapes)

/-- Status classification applied by the walker after reconciling a step's
shapes: a failed reconciliation downgrades whatever the step reported to
GENERAL_FAILURE. -/
def classifyStatus (reconcileOk : Bool) (reported : ErrorStatus) : ErrorStatus :=
  if reconcileOk then reported else ErrorStatus.GENERAL_FAILURE

/-- Event trace of cpuFallbackFull: record the full-model attempt, then the
notify carrying either the mapped dispatch-failure code with no shapes, or
the fallback callback's status, shapes and timing. -/
def cpuFallbackFull (full : FullFallback) : List Event :=
  Event.fullFallbackAttempt ::
    (if full.dispatchCode ≠ ANEURALNETWORKS_NO_ERROR then
      [Event.notify (convertResultCodeToErrorStatus full.dispatchCode) [] kNoTiming]
    else
      [Event.notify full.status full.shapes full.timing])

/-- cpuFallbackPartial: ask the plan for a replacement executor; when that
fails or the replacement is already the CPU device, or when dispatching the
replacement fails, escalate to cpuFallbackFull.  Otherwise run it,
reconcile its shapes (downgrading to GENERAL_FAILURE on reconciliation
failure), and on a non-NONE status either notify directly (simple plan, or
OUTPUT_INSUFFICIENT_SIZE) or escalate to cpuFallbackFull.  Returns whether
the step succeeded (walker continues), the event trace, and the updated
shape table. -/
def cpuFallbackPartial (planIsSimple : Bool) (fb : FallbackStep) (full : FullFallback)
    (outputShapes : List OutputShape) : Bool × List Event × List OutputShape :=
  if fb.fallbackCode ≠ ANEURALNETWORKS_NO_ERROR ∨ fb.executorIsCpu then
    (false, Event.partialFallbackAttempt :: cpuFallbackFull full, outputShapes)
  else if fb.dispatchCode ≠ ANEURALNETWORKS_NO_ERROR then
    (false, Event.partialFallbackAttempt :: cpuFallbackFull full, outputShapes)
  else
    (fun upd =>
      (fun status =>
        if status ≠ ErrorStatus.NONE then
          if planIsSimple ∨ status = ErrorStatus.OUTPUT_INSUFFICIENT_SIZE then
            (false, [Event.partialFallbackAttempt,
                     Event.notify status upd.2 kNoTiming], upd.2)
          else
            (false, Event.partialFallbackAttempt :: cpuFallbackFull full, upd.2)
        else (true, [Event.partialFallbackAttempt], upd.2))
      (classifyStatus upd.1 fb.status))
    (StepExecutor.updateOutputShapes fb.indexMapping fb.shapes outputShapes)

/-- Outcome of one iteration of the walker loop: either continue with
emitted events, an updated shape table and timing, or stop with the final
events. -/
inductive StepOutcome where
  | cont (events : List Event) (shapes : List OutputShape) (timing : Timing)
  | finish (events : List Event)
deriving DecidableEq, Repr

/-- Events emitted by a StepOutcome. -/
def StepOutcome.events : StepOutcome → List Event
  | StepOutcome.cont evs _ _ => evs
  | StepOutcome.finish evs => evs

/-- The source's pattern "if the partial fallback succeeded, continue the
loop; otherwise return": packages a cpuFallbackPartial result into a
StepOutcome. -/
def contOrFinish (r : Bool × List Event × List OutputShape) (timing : Timing) :
    StepOutcome :=
  if r.1 then StepOutcome.cont r.2.1 r.2.2 timing
  else StepOutcome.finish r.2.1

/-- Body of the walker loop of asyncStartComputePartitioned for one step
the plan produced: on a dispatch failure, fall back partially (or notify
the mapped code when fallback is disallowed); otherwise reconcile the
step's shapes, classify the (possibly downgraded) status, and either
continue with the step's timing, fall back partially,
notify OUTPUT_INSUFFICIENT_SIZE with the accumulated shapes, or notify the
failure with no shapes. -/
def walkStep (allowFallback planIsSimple : Bool) (s : StepResult) (fb : FallbackStep)
    (full : FullFallback) (outputShapes : List OutputShape) (timing : Timing) :
    StepOutcome :=
  if s.dispatchCode ≠ ANEURALNETWORKS_NO_ERROR then
    if allowFallback then
      contOrFinish (cpuFallbackPartial planIsSimple fb full outputShapes) timing
    else
      StepOutcome.finish
        [Event.notify (convertResultCodeToErrorStatus s.dispatchCode) [] kNoTiming]
  else
    (fun upd =>
      (fun status =>
        if status = ErrorStatus.NONE then StepOutcome.cont [] upd.2 s.timing
        else if allowFallback = true ∧ status ≠ ErrorStatus.OUTPUT_INSUFFICIENT_SIZE then
          contOrFinish (cpuFallbackPartial planIsSimple fb full upd.2) timing
        else if status = ErrorStatus.OUTPUT_INSUFFICIENT_SIZE then
          StepOutcome.finish [Event.notify status upd.2 kNoTiming]
        else
          StepOutcome.finish [Event.notify status [] kNoTiming])
      (classifyStatus upd.1 s.status))
    (StepExecutor.updateOutputShapes s.indexMapping s.shapes outputShapes)

/-- The walker loop of asyncStartComputePartitioned over the sequence of
plan->next answers: an exhausted list (null executor) notifies success with
the accumulated shapes and last-recorded timing; a plan error falls back to
the full model or notifies the mapped code; a step runs through walkStep. -/
def walkLoop (allowFallback planIsSimple : Bool) :
    List PlanItem → List OutputShape → Timing → List Event
  | [], outputShapes, timing => [Event.notify ErrorStatus.NONE outputShapes timing]
  | PlanItem.planError n full :: _, _, _ =>
    if allowFallback then cpuFallbackFull full
    else [Event.notify (convertResultCodeToErrorStatus n) [] kNoTiming]
  | PlanItem.step s fb full :: rest, outputShapes, timing =>
    match walkStep allowFallback planIsSimple s fb full outputShapes timing with
    | StepOutcome.cont evs shapes2 timing2 =>
      evs ++ walkLoop allowFallback planIsSimple rest shapes2 timing2
    | StepOutcome.finish evs => evs

/-- asyncStartComputePartitioned: disallow fallback when the plan is simple
on the CPU device, seed the shape table from the builder's bound outputs,
and run the walker loop starting with no timing recorded. -/
def asyncStartComputePartitioned (b : ExecutionBuilder)
    (planIsSimpleCpu planIsSimple allowFallback : Bool) (items : List PlanItem) :
    List Event :=
  walkLoop (allowFallback && !planIsSimpleCpu) planIsSimple items
    b.initOutputShapes kNoTiming

/-- Recognizer for the partial-fallback event. -/
def isPartialAttempt : Event → Bool
  | Event.partialFallbackAttempt => true
  | _ => false

/-- Recognizer for the full-model-fallback event. -/
def isFullAttempt : Event → Bool
  | Event.fullFallbackAttempt => true
  | _ => false

/-- Recognizer for completion-callback deliveries. -/
def isNotify : Event → Bool
  | Event.notify _ _ _ => true
  | _ => false

/-- C1: for any two dimension vectors of equal rank, isUpdatable holds iff
every position where the target is non-zero already agrees with the
source; and an empty target vector is updatable by every source vector. -/
theorem isUpdatable_monotonic_refinement :
    (∀ (toV frV : List Nat), toV.length = frV.length →
      (isUpdatable toV frV = true ↔
        ∀ i < toV.length, toV.getD i 0 ≠ 0 → toV.getD i 0 = frV.getD i 0)) ∧
    (∀ frV : List Nat, isUpdatable [] frV = true) := by
  constructor
  · intro toV frV hlen
    by_cases h0 : toV.length = 0
    · simp [isUpdatable, h0]
    · rw [isUpdatable, if_neg h0, if_neg (by omega)]
      simp only [List.all_eq_true, List.mem_range, Bool.or_eq_true, beq_iff_eq]
      constructor
      · intro h i hi hne
        rcases h i hi with h1 | h1
        · exact h1
        · exact absurd h1 hne
      · intro h i hi
        by_cases hz : toV.getD i 0 = 0
        · exact Or.inr hz
        · exact Or.inl (h i hi hz)
  · intro frV
    simp [isUpdatable]

/-- Witness for C1 at the concrete vectors [2, 0] and [2, 5], and at the
empty target vector. -/
theorem isUpdatable_monotonic_refinement_witness :
    (isUpdatable [2, 0] [2, 5] = true ↔
      ∀ i < ([2, 0] : List Nat).length,
        ([2, 0] : List Nat).getD i 0 ≠ 0 →
        ([2, 0] : List Nat).getD i 0 = ([2, 5] : List Nat).getD i 0) ∧
    isUpdatable [] [7] = true :=
  ⟨isUpdatable_monotonic_refinement.1 [2, 0] [2, 5] rfl,
   isUpdatable_monotonic_refinement.2 [7]⟩

/-- C6: setMeasureTiming fails with BAD_DATA whenever the compilation was
not for exactly one explicitly chosen device (even if the execution has
already started, showing this check comes first), fails with BAD_STATE
when that check passes but the execution has started, and otherwise
records the flag. -/
theorem setMeasureTiming_preconditions :
    ∀ (b : ExecutionBuilder) (measure : Bool),
      ((b.mExplicitDeviceList = false ∨ b.mDevicesCount ≠ 1) →
        b.setMeasureTiming measure = (ANEURALNETWORKS_BAD_DATA, b)) ∧
      (b.mExplicitDeviceList = true → b.mDevicesCount = 1 → b.mStarted = true →
        b.setMeasureTiming measure = (ANEURALNETWORKS_BAD_STATE, b)) ∧
      (b.mExplicitDeviceList = true → b.mDevicesCount = 1 → b.mStarted = false →
        b.setMeasureTiming measure =
          (ANEURALNETWORKS_NO_ERROR, { b with mMeasureTiming := measure })) := by
  intro b measure
  refine ⟨fun h => ?_, fun h1 h2 h3 => ?_, fun h1 h2 h3 => ?_⟩ <;>
    simp_all [ExecutionBuilder.setMeasureTiming]

/-- Witness for C6 at concrete builders: one compiled without an explicit
single device (started, still BAD_DATA), one compiled for a single explicit
device but already started (BAD_STATE), and one unstarted (success). -/
theorem setMeasureTiming_preconditions_witness :
    ExecutionBuilder.setMeasureTiming
      { mStarted := true, mFinished := false, mMeasureTiming := false, mInputs := [],
        mOutputs := [], mMemories := [], mTiming := kNoTiming,
        mExplicitDeviceList := false, mDevicesCount := 2 } true =
      (ANEURALNETWORKS_BAD_DATA,
        { mStarted := true, mFinished := false, mMeasureTiming := false, mInputs := [],
          mOutputs := [], mMemories := [], mTiming := kNoTiming,
          mExplicitDeviceList := false, mDevicesCount := 2 }) ∧
    ExecutionBuilder.setMeasureTiming
      { mStarted := true, mFinished := false, mMeasureTiming := false, mInputs := [],
        mOutputs := [], mMemories := [], mTiming := kNoTiming,
        mExplicitDeviceList := true, mDevicesCount := 1 } true =
      (ANEURALNETWORKS_BAD_STATE,
        { mStarted := true, mFinished := false, mMeasureTiming := false, mInputs := [],
          mOutputs := [], mMemories := [], mTiming := kNoTiming,
          mExplicitDeviceList := true, mDevicesCount := 1 }) ∧
    ExecutionBuilder.setMeasureTiming
      { mStarted := false, mFinished := false, mMeasureTiming := false, mInputs := [],
        mOutputs := [], mMemories := [], mTiming := kNoTiming,
        mExplicitDeviceList := true, mDevicesCount := 1 } true =
      (ANEURALNETWORKS_NO_ERROR,
        { mStarted := false, mFinished := false, mMeasureTiming := true, mInputs := [],
          mOutputs := [], mMemories := [], mTiming := kNoTiming,
          mExplicitDeviceList := true, mDevicesCount := 1 }) :=
  ⟨(setMeasureTiming_preconditions _ true).1 (Or.inl rfl),
   ((setMeasureTiming_preconditions _ true).2.1 rfl rfl rfl),
   ((setMeasureTiming_preconditions _ true).2.2 rfl rfl rfl)⟩

/-- C9: after the execution has finished, querying the dimensions of an
in-range output whose recorded dimension vector is empty (a scalar) fails
with BAD_DATA and writes nothing to the caller's buffer, whatever the rest
of the builder state (in particular even when the output was marked
sufficient, i.e. the execution succeeded). -/
theorem getOutputOperandDimensions_scalar :
    ∀ (b : ExecutionBuilder) (index : Nat),
      b.mFinished = true → index < b.mOutputs.length →
      (b.mOutputs.getD index default).dimensions = [] →
      b.getOutputOperandDimensions index = (ANEURALNETWORKS_BAD_DATA, none) := by
  intro b index hf hi hd
  have hle : ¬ b.mOutputs.length ≤ index := by omega
  rw [List.getD_eq_getElem?_getD] at hd
  simp [ExecutionBuilder.getOutputOperandDimensions, hf, hle, hd]

/-- Witness for C9: a finished builder whose only output is a sufficient
scalar (empty dimension vector). -/
theorem getOutputOperandDimensions_scalar_witness :
    ExecutionBuilder.getOutputOperandDimensions
      { mStarted := true, mFinished := true, mMeasureTiming := false,
        mInputs := [],
        mOutputs := [{ state := ArgState.POINTER, dimensions := [], isSufficient := true }],
        mMemories := [], mTiming := kNoTiming, mExplicitDeviceList := false,
        mDevicesCount := 0 } 0 =
      (ANEURALNETWORKS_BAD_DATA, none) :=
  getOutputOperandDimensions_scalar _ 0 rfl (by decide) rfl

/-- C8: ExecutionBuilder::updateOutputShapes is atomic.  When it returns
false the stored builder (outputs included) is entirely unchanged; an
empty proposed vector succeeds without mutation; and a true result on a
non-empty vector means the rank count matched and every slot passed the
isUpdatable validation. -/
theorem updateOutputShapes_atomic :
    ∀ (b : ExecutionBuilder) (outputShapes : List OutputShape),
      ((b.updateOutputShapes outputShapes).1 = false →
        (b.updateOutputShapes outputShapes).2 = b) ∧
      (b.updateOutputShapes [] = (true, b)) ∧
      ((b.updateOutputShapes outputShapes).1 = true → outputShapes.length ≠ 0 →
        outputShapes.length = b.mOutputs.length ∧
        ∀ i < outputShapes.length,
          isUpdatable (b.mOutputs.getD i default).dimensions
            (outputShapes.getD i default).dimensions = true) := by
  intro b outputShapes
  refine ⟨?_, ?_, ?_⟩
  · unfold ExecutionBuilder.updateOutputShapes
    split_ifs <;> simp
  · simp [ExecutionBuilder.updateOutputShapes]
  · unfold ExecutionBuilder.updateOutputShapes
    split_ifs with h1 h2 h3
    · intro _ hne
      exact absurd h1 hne
    · intro hfalse _
      exact absurd hfalse (by simp)
    · intro _ _
      refine ⟨by omega, fun i hi => ?_⟩
      simp only [List.all_eq_true, List.mem_range] at h3
      exact h3 i hi
    · intro hfalse _
      exact absurd hfalse (by simp)

/-- Sample builder for the C8 witness: one output with fixed dimension 2. -/
def ebW8 : ExecutionBuilder :=
  { mStarted := true, mFinished := false, mMeasureTiming := false, mInputs := [],
    mOutputs := [{ state := ArgState.POINTER, dimensions := [2], isSufficient := true }],
    mMemories := [], mTiming := kNoTiming, mExplicitDeviceList := false,
    mDevicesCount := 0 }

/-- Witness for C8: proposing an incompatible shape [3] for the fixed
dimension [2] is rejected and leaves the builder unchanged, and the empty
proposal succeeds without mutation. -/
theorem updateOutputShapes_atomic_witness :
    (ebW8.updateOutputShapes [{ dimensions := [3], isSufficient := true }]).2 = ebW8 ∧
    ebW8.updateOutputShapes [] = (true, ebW8) :=
  ⟨(updateOutputShapes_atomic ebW8 [{ dimensions := [3], isSufficient := true }]).1
      (by decide),
   (updateOutputShapes_atomic ebW8 []).2.1⟩

/-- Sample builder for C10: finished, with timing measured, whose recorded
on-hardware duration is 2^63 microseconds (not the sentinel). -/
def ebW10 : ExecutionBuilder :=
  { mStarted := true, mFinished := true, mMeasureTiming := true, mInputs := [],
    mOutputs := [], mMemories := [],
    mTiming := { timeOnDevice := 2 ^ 63, timeInDriver := UINT64_MAX },
    mExplicitDeviceList := true, mDevicesCount := 1 }

/-- Counterexample for C10 as stated: for the recorded duration d = 2^63
microseconds (not the sentinel), the source's uint64_t multiplication
1000 * d wraps to 0, so getDuration does not return 1000 * d exactly. -/
theorem getDuration_overflow_counterexample :
    ebW10.mTiming.timeOnDevice ≠ UINT64_MAX ∧
    ebW10.getDuration DurationCode.onHardware = (ANEURALNETWORKS_NO_ERROR, some 0) ∧
    (0 : Nat) ≠ 1000 * ebW10.mTiming.timeOnDevice := by
  refine ⟨by decide, ?_, by decide⟩
  decide

/-- C10 (amended): getDuration on a finished, measured execution returns
the wrapping 64-bit product (1000 * d) mod 2^64 when the recorded duration
d is not the UINT64_MAX sentinel, returns the sentinel unconverted when
d is the sentinel, and the conversion never produces the sentinel value
(so the two cases remain distinguishable). -/
theorem getDuration_conversion :
    ∀ (b : ExecutionBuilder) (code : DurationCode),
      b.mFinished = true → b.mMeasureTiming = true →
      (selectedDuration b code ≠ UINT64_MAX →
        b.getDuration code =
          (ANEURALNETWORKS_NO_ERROR, some ((1000 * selectedDuration b code) % 2 ^ 64))) ∧
      (selectedDuration b code = UINT64_MAX →
        b.getDuration code = (ANEURALNETWORKS_NO_ERROR, some UINT64_MAX)) ∧
      (1000 * selectedDuration b code) % 2 ^ 64 ≠ UINT64_MAX := by
  intro b code hf hm
  refine ⟨fun hd => ?_, fun hd => ?_, ?_⟩
  · simp [ExecutionBuilder.getDuration, hf, hm, hd]
  · simp [ExecutionBuilder.getDuration, hf, hm, hd]
  · simp only [UINT64_MAX]
    omega

/-- Witness for C10 (amended) at the sample builder: the on-hardware
duration 2^63 is converted with wraparound, and the in-driver sentinel is
returned unconverted. -/
theorem getDuration_conversion_witness :
    ebW10.getDuration DurationCode.onHardware =
      (ANEURALNETWORKS_NO_ERROR, some ((1000 * selectedDuration ebW10 DurationCode.onHardware) % 2 ^ 64)) ∧
    ebW10.getDuration DurationCode.inDriver = (ANEURALNETWORKS_NO_ERROR, some UINT64_MAX) :=
  ⟨((getDuration_conversion ebW10 DurationCode.onHardware rfl rfl).1 (by decide)),
   ((getDuration_conversion ebW10 DurationCode.inDriver rfl rfl).2.1 (by decide))⟩

/-- Sample builder for C5: unstarted, one input slot and one output slot. -/
def ebW5 : ExecutionBuilder :=
  { mStarted := false, mFinished := false, mMeasureTiming := false,
    mInputs := [default], mOutputs := [default], mMemories := [],
    mTiming := kNoTiming, mExplicitDeviceList := false, mDevicesCount := 0 }

/-- Counterexample for C5 as stated: on an unstarted builder with one
declared input, binding slot 5 fails with ANEURALNETWORKS_BAD_DATA — the
very same code returned for a dimension-check (BadData) failure on slot 0,
and likewise for an out-of-range output query after finishing — so the
out-of-range failure is not a distinct BadIndex signal. -/
theorem bad_index_counterexample :
    (ebW5.setInput 5 true 0 ANEURALNETWORKS_NO_ERROR default).1 =
      ANEURALNETWORKS_BAD_DATA ∧
    (ebW5.setInput 0 false 0 ANEURALNETWORKS_NO_ERROR default).1 =
      ANEURALNETWORKS_BAD_DATA ∧
    (ExecutionBuilder.getOutputOperandDimensions
      { ebW5 with mFinished := true } 9).1 = ANEURALNETWORKS_BAD_DATA := by
  refine ⟨?_, ?_, ?_⟩ <;> decide

/-- C5 (amended): every bind call with a slot index at or past the declared
input/output count on an unstarted builder fails with BAD_DATA (the same
code as other data errors, there being no separate index code) and leaves
the builder unchanged; getOutputOperandDimensions and getOutputOperandRank
fail with BAD_DATA on an out-of-range output index after the execution has
finished, writing nothing. -/
theorem out_of_range_index_rejected :
    ∀ (b : ExecutionBuilder) (index len mem off : Nat) (cd ahwb vOk : Bool)
      (sc : Int) (ni : ModelArgumentInfo),
      (b.mStarted = false → b.mInputs.length ≤ index →
        b.setInput index cd len sc ni = (ANEURALNETWORKS_BAD_DATA, b) ∧
        b.setInputFromMemory index cd mem ahwb off len vOk sc ni =
          (ANEURALNETWORKS_BAD_DATA, b)) ∧
      (b.mStarted = false → b.mOutputs.length ≤ index →
        b.setOutput index cd len sc ni = (ANEURALNETWORKS_BAD_DATA, b) ∧
        b.setOutputFromMemory index cd mem ahwb off len vOk sc ni =
          (ANEURALNETWORKS_BAD_DATA, b)) ∧
      (b.mFinished = true → b.mOutputs.length ≤ index →
        b.getOutputOperandDimensions index = (ANEURALNETWORKS_BAD_DATA, none) ∧
        b.getOutputOperandRank index = (ANEURALNETWORKS_BAD_DATA, none)) := by
  intro b index len mem off cd ahwb vOk sc ni
  refine ⟨fun hs hi => ⟨?_, ?_⟩, fun hs hi => ⟨?_, ?_⟩, fun hf hi => ⟨?_, ?_⟩⟩
  · simp [ExecutionBuilder.setInput, hs, hi]
  · simp [ExecutionBuilder.setInputFromMemory, hs, hi]
  · simp [ExecutionBuilder.setOutput, hs, hi]
  · simp [ExecutionBuilder.setOutputFromMemory, hs, hi]
  · simp [ExecutionBuilder.getOutputOperandDimensions, hf, hi]
  · simp [ExecutionBuilder.getOutputOperandRank, hf, hi]

/-- Witness for C5 (amended) at the sample builder, slot index 5. -/
theorem out_of_range_index_rejected_witness :
    ebW5.setInput 5 true 0 ANEURALNETWORKS_NO_ERROR default =
      (ANEURALNETWORKS_BAD_DATA, ebW5) ∧
    ExecutionBuilder.getOutputOperandDimensions { ebW5 with mFinished := true } 5 =
      (ANEURALNETWORKS_BAD_DATA, none) :=
  ⟨((out_of_range_index_rejected ebW5 5 0 0 0 true false false
      ANEURALNETWORKS_NO_ERROR default).1 rfl (by decide)).1,
   ((out_of_range_index_rejected { ebW5 with mFinished := true } 5 0 0 0 true false false
      ANEURALNETWORKS_NO_ERROR default).2.2 rfl (by decide)).1⟩

/-- C4: a first compute invocation that passes the binding checks marks the
execution started; once started, a second compute and every bind call
(setInput, setInputFromMemory, setOutput, setOutputFromMemory) return
BAD_STATE and leave the builder — bindings included — entirely
unchanged. -/
theorem compute_state_machine :
    ∀ (b : ExecutionBuilder) (runCode : Int),
      (b.mStarted = false →
        b.mInputs.any (fun p => p.state == ArgState.UNSPECIFIED) = false →
        b.mOutputs.any (fun p => p.state == ArgState.UNSPECIFIED) = false →
        b.compute runCode = (runCode, { b with mStarted := true })) ∧
      (b.mStarted = true →
        ∀ (runCode2 sc : Int) (index len mem off : Nat) (cd ahwb vOk : Bool)
          (ni : ModelArgumentInfo),
          b.compute runCode2 = (ANEURALNETWORKS_BAD_STATE, b) ∧
          b.setInput index cd len sc ni = (ANEURALNETWORKS_BAD_STATE, b) ∧
          b.setInputFromMemory index cd mem ahwb off len vOk sc ni =
            (ANEURALNETWORKS_BAD_STATE, b) ∧
          b.setOutput index cd len sc ni = (ANEURALNETWORKS_BAD_STATE, b) ∧
          b.setOutputFromMemory index cd mem ahwb off len vOk sc ni =
            (ANEURALNETWORKS_BAD_STATE, b)) := by
  intro b runCode
  constructor
  · intro hs hin hout
    simp [ExecutionBuilder.compute, hs, hin, hout]
  · intro hs runCode2 sc index len mem off cd ahwb vOk ni
    refine ⟨?_, ?_, ?_, ?_, ?_⟩ <;>
      simp [ExecutionBuilder.compute, ExecutionBuilder.setInput,
        ExecutionBuilder.setInputFromMemory, ExecutionBuilder.setOutput,
        ExecutionBuilder.setOutputFromMemory, hs]

/-- Sample builder for C4: unstarted, all slots bound. -/
def ebW4 : ExecutionBuilder :=
  { mStarted := false, mFinished := false, mMeasureTiming := false,
    mInputs := [{ state := ArgState.POINTER, dimensions := [2], isSufficient := true }],
    mOutputs := [{ state := ArgState.POINTER, dimensions := [2], isSufficient := true }],
    mMemories := [], mTiming := kNoTiming, mExplicitDeviceList := false,
    mDevicesCount := 0 }

/-- Witness for C4: a first compute on the fully bound sample builder
starts it, and on the started builder a second compute and a bind call are
rejected with BAD_STATE, leaving the state unchanged. -/
theorem compute_state_machine_witness :
    ebW4.compute ANEURALNETWORKS_NO_ERROR =
      (ANEURALNETWORKS_NO_ERROR, { ebW4 with mStarted := true }) ∧
    ExecutionBuilder.compute { ebW4 with mStarted := true } ANEURALNETWORKS_NO_ERROR =
      (ANEURALNETWORKS_BAD_STATE, { ebW4 with mStarted := true }) ∧
    ExecutionBuilder.setInput { ebW4 with mStarted := true } 0 true 8
        ANEURALNETWORKS_NO_ERROR default =
      (ANEURALNETWORKS_BAD_STATE, { ebW4 with mStarted := true }) :=
  ⟨(compute_state_machine ebW4 ANEURALNETWORKS_NO_ERROR).1 rfl (by decide) (by decide),
   ((compute_state_machine { ebW4 with mStarted := true } ANEURALNETWORKS_NO_ERROR).2 rfl
      ANEURALNETWORKS_NO_ERROR ANEURALNETWORKS_NO_ERROR 0 8 0 0 true false false default).1,
   (((compute_state_machine { ebW4 with mStarted := true } ANEURALNETWORKS_NO_ERROR).2 rfl
      ANEURALNETWORKS_NO_ERROR ANEURALNETWORKS_NO_ERROR 0 8 0 0 true false false default).2).1⟩

/-- Events of a packaged cpuFallbackPartial result are its trace, whether
the walker continues or stops. -/
theorem contOrFinish_events (r : Bool × List Event × List OutputShape) (timing : Timing) :
    (contOrFinish r timing).events = r.2.1 := by
  unfold contOrFinish
  split <;> rfl

/-- The cpuFallbackFull trace contains no partial-fallback attempt. -/
theorem cpuFallbackFull_partial_count (full : FullFallback) :
    (cpuFallbackFull full).countP isPartialAttempt = 0 := by
  by_cases h : full.dispatchCode ≠ ANEURALNETWORKS_NO_ERROR <;>
    simp [cpuFallbackFull, h, isPartialAttempt]

/-- The cpuFallbackFull trace contains exactly one full-model attempt. -/
theorem cpuFallbackFull_full_count (full : FullFallback) :
    (cpuFallbackFull full).countP isFullAttempt = 1 := by
  by_cases h : full.dispatchCode ≠ ANEURALNETWORKS_NO_ERROR <;>
    simp [cpuFallbackFull, h, isFullAttempt]

/-- The cpuFallbackFull trace contains exactly one notify. -/
theorem cpuFallbackFull_notify_count (full : FullFallback) :
    (cpuFallbackFull full).countP isNotify = 1 := by
  by_cases h : full.dispatchCode ≠ ANEURALNETWORKS_NO_ERROR <;>
    simp [cpuFallbackFull, h, isNotify]

/-- Every cpuFallbackPartial trace contains exactly one partial-fallback
attempt. -/
theorem cpuFallbackPartial_partial_count (simple : Bool) (fb : FallbackStep)
    (full : FullFallback) (shapes : List OutputShape) :
    (cpuFallbackPartial simple fb full shapes).2.1.countP isPartialAttempt = 1 := by
  simp only [cpuFallbackPartial]
  split_ifs <;>
    simp [isPartialAttempt, cpuFallbackFull_partial_count]

/-- Every cpuFallbackPartial trace contains at most one full-model
attempt. -/
theorem cpuFallbackPartial_full_count (simple : Bool) (fb : FallbackStep)
    (full : FullFallback) (shapes : List OutputShape) :
    (cpuFallbackPartial simple fb full shapes).2.1.countP isFullAttempt ≤ 1 := by
  simp only [cpuFallbackPartial]
  split_ifs <;>
    simp [isFullAttempt, cpuFallbackFull_full_count]

/-- A single walker-loop iteration emits at most one partial-fallback
attempt. -/
theorem walkStep_partial_count (allow simple : Bool) (s : StepResult) (fb : FallbackStep)
    (full : FullFallback) (shapes : List OutputShape) (timing : Timing) :
    (walkStep allow simple s fb full shapes timing).events.countP isPartialAttempt ≤ 1 := by
  simp only [walkStep]
  split_ifs <;>
    first
      | (rw [contOrFinish_events]; simp [cpuFallbackPartial_partial_count])
      | simp [StepOutcome.events, isPartialAttempt]

/-- C2: when a step runs and its classified status is
OUTPUT_INSUFFICIENT_SIZE, the walker loop delivers exactly one completion
notification carrying that status and the reconciled shape table, performs
no partial or full fallback, and terminates (any remaining plan items are
never consumed); and when the replacement step inside cpuFallbackPartial
classifies as OUTPUT_INSUFFICIENT_SIZE, the routine notifies directly with
the updated shapes and never escalates to the full-model fallback. -/
theorem output_insufficient_no_fallback :
    (∀ (allow simple : Bool) (s : StepResult) (fb : FallbackStep) (full : FullFallback)
       (shapes : List OutputShape) (timing : Timing) (rest : List PlanItem),
       s.dispatchCode = ANEURALNETWORKS_NO_ERROR →
       classifyStatus (StepExecutor.updateOutputShapes s.indexMapping s.shapes shapes).1
         s.status = ErrorStatus.OUTPUT_INSUFFICIENT_SIZE →
       walkLoop allow simple (PlanItem.step s fb full :: rest) shapes timing =
         [Event.notify ErrorStatus.OUTPUT_INSUFFICIENT_SIZE
            (StepExecutor.updateOutputShapes s.indexMapping s.shapes shapes).2 kNoTiming]) ∧
    (∀ (simple : Bool) (fb : FallbackStep) (full : FullFallback)
       (shapes : List OutputShape),
       fb.fallbackCode = ANEURALNETWORKS_NO_ERROR → fb.executorIsCpu = false →
       fb.dispatchCode = ANEURALNETWORKS_NO_ERROR →
       classifyStatus (StepExecutor.updateOutputShapes fb.indexMapping fb.shapes shapes).1
         fb.status = ErrorStatus.OUTPUT_INSUFFICIENT_SIZE →
       cpuFallbackPartial simple fb full shapes =
         (false,
          [Event.partialFallbackAttempt,
           Event.notify ErrorStatus.OUTPUT_INSUFFICIENT_SIZE
             (StepExecutor.updateOutputShapes fb.indexMapping fb.shapes shapes).2 kNoTiming],
          (StepExecutor.updateOutputShapes fb.indexMapping fb.shapes shapes).2)) := by
  constructor
  · intro allow simple s fb full shapes timing rest hdisp hcl
    simp [walkLoop, walkStep, hdisp, hcl]
  · intro simple fb full shapes h1 h2 h3 hcl
    simp [cpuFallbackPartial, h1, h2, h3, hcl]

/-- Shared full-fallback oracle for the walker witnesses. -/
def fullW : FullFallback :=
  { dispatchCode := ANEURALNETWORKS_NO_ERROR, status := ErrorStatus.NONE,
    shapes := [], timing := kNoTiming }

/-- Step oracle for the C2 witness: runs, reports
OUTPUT_INSUFFICIENT_SIZE with a compatible shape. -/
def sW2 : StepResult :=
  { dispatchCode := ANEURALNETWORKS_NO_ERROR,
    status := ErrorStatus.OUTPUT_INSUFFICIENT_SIZE,
    shapes := [{ dimensions := [2], isSufficient := false }],
    indexMapping := none, timing := kNoTiming }

/-- Fallback-step oracle for the C2 witness: replacement found, not CPU,
dispatches, reports OUTPUT_INSUFFICIENT_SIZE. -/
def fbW2 : FallbackStep :=
  { fallbackCode := ANEURALNETWORKS_NO_ERROR, executorIsCpu := false,
    dispatchCode := ANEURALNETWORKS_NO_ERROR,
    status := ErrorStatus.OUTPUT_INSUFFICIENT_SIZE,
    shapes := [{ dimensions := [2], isSufficient := false }], indexMapping := none }

/-- Witness for C2: with fallback allowed and a pending further plan item,
the insufficient-size step still yields exactly the single notification
with the reconciled shapes, and the partial-fallback routine notifies
directly on an insufficient-size replacement step. -/
theorem output_insufficient_no_fallback_witness :
    walkLoop true false
        [PlanItem.step sW2 fbW2 fullW, PlanItem.planError ANEURALNETWORKS_BAD_DATA fullW]
        [{ dimensions := [2], isSufficient := true }] kNoTiming =
      [Event.notify ErrorStatus.OUTPUT_INSUFFICIENT_SIZE
        [{ dimensions := [2], isSufficient := false }] kNoTiming] ∧
    cpuFallbackPartial false fbW2 fullW [{ dimensions := [2], isSufficient := true }] =
      (false,
       [Event.partialFallbackAttempt,
        Event.notify ErrorStatus.OUTPUT_INSUFFICIENT_SIZE
          [{ dimensions := [2], isSufficient := false }] kNoTiming],
       [{ dimensions := [2], isSufficient := false }]) := by
  constructor
  · exact (output_insufficient_no_fallback.1 true false sW2 fbW2 fullW
      [{ dimensions := [2], isSufficient := true }] kNoTiming
      [PlanItem.planError ANEURALNETWORKS_BAD_DATA fullW] rfl (by decide)).trans (by decide)
  · exact (output_insufficient_no_fallback.2 false fbW2 fullW
      [{ dimensions := [2], isSufficient := true }] rfl rfl rfl (by decide)).trans (by decide)

/-- C3: single retry of partial fallback.  (a) One walker iteration enters
the partial-fallback routine at most once, and any one cpuFallbackPartial
invocation performs exactly one partial attempt and at most one full-model
attempt.  (b) When the replacement ran and failed (status neither NONE nor
OUTPUT_INSUFFICIENT_SIZE) on a non-simple plan, the routine escalates to
exactly one full-model fallback rather than retrying partially.  (c) On a
simple plan a failed replacement is surfaced directly (no further fallback
of either kind).  (d) When no replacement can be produced or the
replacement is already the CPU device, the routine goes to the full-model
fallback exactly once. -/
theorem partial_fallback_single_retry :
    (∀ (allow simple : Bool) (s : StepResult) (fb : FallbackStep) (full : FullFallback)
       (shapes : List OutputShape) (timing : Timing),
       (walkStep allow simple s fb full shapes timing).events.countP isPartialAttempt ≤ 1) ∧
    (∀ (simple : Bool) (fb : FallbackStep) (full : FullFallback)
       (shapes : List OutputShape),
       (cpuFallbackPartial simple fb full shapes).2.1.countP isPartialAttempt = 1 ∧
       (cpuFallbackPartial simple fb full shapes).2.1.countP isFullAttempt ≤ 1) ∧
    (∀ (fb : FallbackStep) (full : FullFallback) (shapes : List OutputShape),
       fb.fallbackCode = ANEURALNETWORKS_NO_ERROR → fb.executorIsCpu = false →
       fb.dispatchCode = ANEURALNETWORKS_NO_ERROR →
       classifyStatus (StepExecutor.updateOutputShapes fb.indexMapping fb.shapes shapes).1
         fb.status ≠ ErrorStatus.NONE →
       classifyStatus (StepExecutor.updateOutputShapes fb.indexMapping fb.shapes shapes).1
         fb.status ≠ ErrorStatus.OUTPUT_INSUFFICIENT_SIZE →
       cpuFallbackPartial false fb full shapes =
         (false, Event.partialFallbackAttempt :: cpuFallbackFull full,
          (StepExecutor.updateOutputShapes fb.indexMapping fb.shapes shapes).2)) ∧
    (∀ (fb : FallbackStep) (full : FullFallback) (shapes : List OutputShape),
       fb.fallbackCode = ANEURALNETWORKS_NO_ERROR → fb.executorIsCpu = false →
       fb.dispatchCode = ANEURALNETWORKS_NO_ERROR →
       classifyStatus (StepExecutor.updateOutputShapes fb.indexMapping fb.shapes shapes).1
         fb.status ≠ ErrorStatus.NONE →
       cpuFallbackPartial true fb full shapes =
         (false,
          [Event.partialFallbackAttempt,
           Event.notify
             (classifyStatus
               (StepExecutor.updateOutputShapes fb.indexMapping fb.shapes shapes).1
               fb.status)
             (StepExecutor.updateOutputShapes fb.indexMapping fb.shapes shapes).2 kNoTiming],
          (StepExecutor.updateOutputShapes fb.indexMapping fb.shapes shapes).2)) ∧
    (∀ (simple : Bool) (fb : FallbackStep) (full : FullFallback)
       (shapes : List OutputShape),
       (fb.fallbackCode ≠ ANEURALNETWORKS_NO_ERROR ∨ fb.executorIsCpu = true) →
       cpuFallbackPartial simple fb full shapes =
         (false, Event.partialFallbackAttempt :: cpuFallbackFull full, shapes)) := by
  refine ⟨walkStep_partial_count, ?_, ?_, ?_, ?_⟩
  · intro simple fb full shapes
    exact ⟨cpuFallbackPartial_partial_count simple fb full shapes,
           cpuFallbackPartial_full_count simple fb full shapes⟩
  · intro fb full shapes h1 h2 h3 hne hnois
    simp [cpuFallbackPartial, h1, h2, h3, hne, hnois]
  · intro fb full shapes h1 h2 h3 hne
    simp [cpuFallbackPartial, h1, h2, h3, hne]
  · intro simple fb full shapes h
    rcases h with h | h
    · simp [cpuFallbackPartial, h]
    · simp [cpuFallbackPartial, h]

/-- Fallback-step oracle for the C3 witness: replacement found, not CPU,
dispatches, but fails with GENERAL_FAILURE. -/
def fbW3 : FallbackStep :=
  { fallbackCode := ANEURALNETWORKS_NO_ERROR, executorIsCpu := false,
    dispatchCode := ANEURALNETWORKS_NO_ERROR, status := ErrorStatus.GENERAL_FAILURE,
    shapes := [{ dimensions := [2], isSufficient := true }], indexMapping := none }

/-- Fallback-step oracle for the C3 witness case where the plan cannot
produce a replacement executor. -/
def fbW3n : FallbackStep :=
  { fallbackCode := ANEURALNETWORKS_BAD_DATA, executorIsCpu := false,
    dispatchCode := ANEURALNETWORKS_NO_ERROR, status := ErrorStatus.NONE,
    shapes := [], indexMapping := none }

/-- Witness for C3: a failed replacement on a non-simple plan escalates to
one full-model fallback; the same failure on a simple plan is surfaced
directly; a missing replacement goes straight to the full-model fallback;
and the partial-attempt count of such a trace is exactly one. -/
theorem partial_fallback_single_retry_witness :
    (cpuFallbackPartial false fbW3 fullW [{ dimensions := [2], isSufficient := true }] =
      (false, Event.partialFallbackAttempt :: cpuFallbackFull fullW,
       (StepExecutor.updateOutputShapes fbW3.indexMapping fbW3.shapes
         [{ dimensions := [2], isSufficient := true }]).2)) ∧
    (cpuFallbackPartial true fbW3 fullW [{ dimensions := [2], isSufficient := true }] =
      (false,
       [Event.partialFallbackAttempt,
        Event.notify
          (classifyStatus
            (StepExecutor.updateOutputShapes fbW3.indexMapping fbW3.shapes
              [{ dimensions := [2], isSufficient := true }]).1 fbW3.status)
          (StepExecutor.updateOutputShapes fbW3.indexMapping fbW3.shapes
            [{ dimensions := [2], isSufficient := true }]).2 kNoTiming],
       (StepExecutor.updateOutputShapes fbW3.indexMapping fbW3.shapes
         [{ dimensions := [2], isSufficient := true }]).2)) ∧
    (cpuFallbackPartial false fbW3n fullW [] =
      (false, Event.partialFallbackAttempt :: cpuFallbackFull fullW, [])) ∧
    (cpuFallbackPartial false fbW3 fullW
      [{ dimensions := [2], isSufficient := true }]).2.1.countP isPartialAttempt = 1 :=
  ⟨partial_fallback_single_retry.2.2.1 fbW3 fullW
     [{ dimensions := [2], isSufficient := true }] rfl rfl rfl (by decide) (by decide),
   partial_fallback_single_retry.2.2.2.1 fbW3 fullW
     [{ dimensions := [2], isSufficient := true }] rfl rfl rfl (by decide),
   partial_fallback_single_retry.2.2.2.2 false fbW3n fullW [] (Or.inl (by decide)),
   (partial_fallback_single_retry.2.1 false fbW3 fullW
     [{ dimensions := [2], isSufficient := true }]).1⟩

/-- C7: when reconciling a step's reported shapes into the running table
fails, the status the walker classifies is GENERAL_FAILURE no matter what
status the step itself reported: one loop iteration behaves exactly as if
the step had reported GENERAL_FAILURE. -/
theorem reconcile_failure_downgrade :
    ∀ (allow simple : Bool) (s : StepResult) (fb : FallbackStep) (full : FullFallback)
      (shapes : List OutputShape) (timing : Timing),
      (StepExecutor.updateOutputShapes s.indexMapping s.shapes shapes).1 = false →
      classifyStatus (StepExecutor.updateOutputShapes s.indexMapping s.shapes shapes).1
        s.status = ErrorStatus.GENERAL_FAILURE ∧
      walkStep allow simple s fb full shapes timing =
        walkStep allow simple { s with status := ErrorStatus.GENERAL_FAILURE } fb full
          shapes timing := by
  intro allow simple s fb full shapes timing h
  refine ⟨by simp [classifyStatus, h], ?_⟩
  simp [walkStep, classifyStatus, h]

/-- Step oracle for the C7 witness: reports success (NONE) but two shapes
against a one-entry table, so reconciliation fails. -/
def sW7 : StepResult :=
  { dispatchCode := ANEURALNETWORKS_NO_ERROR, status := ErrorStatus.NONE,
    shapes := [{ dimensions := [2], isSufficient := true },
               { dimensions := [3], isSufficient := true }],
    indexMapping := none, timing := kNoTiming }

/-- Witness for C7: even a step reporting success is treated as
GENERAL_FAILURE when its shape report cannot be reconciled. -/
theorem reconcile_failure_downgrade_witness :
    classifyStatus
      (StepExecutor.updateOutputShapes sW7.indexMapping sW7.shapes
        [{ dimensions := [2], isSufficient := true }]).1 sW7.status =
      ErrorStatus.GENERAL_FAILURE ∧
    walkStep false false sW7 fbW3 fullW
        [{ dimensions := [2], isSufficient := true }] kNoTiming =
      walkStep false false { sW7 with status := ErrorStatus.GENERAL_FAILURE } fbW3 fullW
        [{ dimensions := [2], isSufficient := true }] kNoTiming :=
  reconcile_failure_downgrade false false sW7 fbW3 fullW
    [{ dimensions := [2], isSufficient := true }] kNoTiming (by decide)
